import Mathlib

/-!
Shallow embedding of the Tensor review-transition core (TypeScript sources)
over the real numbers.  JavaScript `Number` arithmetic is modelled by `ℝ`;
`toFixed(8)` followed by unary `+` is modelled by rounding to the nearest
multiple of `10⁻⁸` (`round8`).  Lean conventions: division by zero and
`x⁻¹` at zero yield `0`.
-/

noncomputable section

open Real

/-- `+v.toFixed(8)`: round to the nearest multiple of `10⁻⁸`. -/
def round8 (x : ℝ) : ℝ := (round (x * 100000000) : ℤ) / 100000000

/-- ts-fsrs `clamp(value, min, max) = Math.min(Math.max(value, min), max)`. -/
def clamp (value lo hi : ℝ) : ℝ := min (max value lo) hi

/-- `default_w` from `src/fsrs/core/params.ts` (21 weights, FSRS-6 decay). -/
def default_w : ℕ → ℝ
  | 0 => 0.212
  | 1 => 1.2931
  | 2 => 2.3065
  | 3 => 8.2956
  | 4 => 6.4133
  | 5 => 0.8334
  | 6 => 3.0194
  | 7 => 0.001
  | 8 => 1.8722
  | 9 => 0.1666
  | 10 => 0.796
  | 11 => 1.4835
  | 12 => 0.0614
  | 13 => 0.2629
  | 14 => 1.6483
  | 15 => 0.6014
  | 16 => 1.8729
  | 17 => 0.5425
  | 18 => 0.0912
  | 19 => 0.0658
  | 20 => 0.1542
  | _ => 0

/-- Result record of `computeDecayFactor` from `src/fsrs/core/recall.ts`. -/
structure DecayFactor where
  decay : ℝ
  factor : ℝ

/-- `computeDecayFactor` (array branch): `decay = -params[20]`,
`factor = +(exp(decay⁻¹·ln 0.9) - 1).toFixed(8)`. -/
def computeDecayFactor (params : ℕ → ℝ) : DecayFactor :=
  let decay := -(params 20)
  { decay := decay, factor := round8 (Real.exp (decay⁻¹ * Real.log 0.9) - 1) }

/-- `forgetting_curve(params, elapsed_days, stability)` from
`src/fsrs/core/recall.ts`: `+((1 + factor·t/S) ^ decay).toFixed(8)`. -/
def forgetting_curve (params : ℕ → ℝ) (elapsed_days stability : ℝ) : ℝ :=
  let df := computeDecayFactor params
  round8 ((1 + df.factor * elapsed_days / stability) ^ df.decay)

/-- `next_recall_stability(params, d, s, r, g)` from `src/fsrs/core/stability.ts`.
Grades use the FSRS numeric rating: Again = 1, Hard = 2, Good = 3, Easy = 4. -/
def next_recall_stability (params : ℕ → ℝ) (d s r : ℝ) (g : ℕ) : ℝ :=
  let hard_penalty := if g = 2 then params 15 else 1
  let easy_bound := if g = 4 then params 16 else 1
  round8 (clamp
    (s * (1 + Real.exp (params 8) * (11 - d) * s ^ (-(params 9)) *
      (Real.exp ((1 - r) * params 10) - 1) * hard_penalty * easy_bound))
    0.001 36500)

/-- `next_forget_stability(params, d, s, r, enable_short_term)` from
`src/fsrs/core/stability.ts`. -/
def next_forget_stability (params : ℕ → ℝ) (d s r : ℝ)
    (enable_short_term : Bool) : ℝ :=
  let s_new := params 11 * d ^ (-(params 12)) * ((s + 1) ^ (params 13) - 1) *
    Real.exp ((1 - r) * params 14)
  if enable_short_term then
    round8 (clamp s_new 0.001 (s / Real.exp (params 17 * params 18)))
  else
    round8 (clamp s_new 0.001 s)

/-- The review grade exposed by `reviewStep` (string union in TypeScript). -/
inductive Grade where
  | Again
  | Hard
  | Good
  | Easy
deriving DecidableEq

/-- `gradeMap` inside `reviewStep`: FSRS numeric rating of a grade. -/
def gradeMap : Grade → ℕ
  | Grade.Again => 1
  | Grade.Hard => 2
  | Grade.Good => 3
  | Grade.Easy => 4

/-- `RetentionSignals` from `src/tensor/policy/adaptiveRetention.ts`. -/
structure RetentionSignals where
  backlogSize : ℝ
  recentFailureRate : ℝ
  sessionLength : ℝ
  dailyCapacity : ℝ
  dueToday : ℝ
  recentSuccessRate : Option ℝ
  userIntent : Option ℝ

/-- `computeLoadPressure(dueToday, dailyCapacity)` from
`src/tensor/policy/loadPressure.ts`. -/
def computeLoadPressure (dueToday dailyCapacity : ℝ) : ℝ :=
  if dueToday ≤ 0 then 1
  else if dailyCapacity ≤ 0 then 0.85
  else min 1 (max 0.85 (dailyCapacity / dueToday))

/-- `computeRTarget(signals)` from `src/tensor/policy/adaptiveRetention.ts`,
with the default arguments `R_base = 0.85`, `gamma = 0.1`, `delta = 0.02`
used by `reviewStep`. -/
def computeRTarget (signals : RetentionSignals) : ℝ :=
  let recentSuccessRate := signals.recentSuccessRate.getD (1 - signals.recentFailureRate)
  let userIntent := signals.userIntent.getD
    (max 0 (min 1 (1 - signals.backlogSize / 100 - signals.sessionLength / 120)))
  let R_target := 0.85 + 0.1 * recentSuccessRate + 0.02 * userIntent
  let loadRatio := if 0 < signals.dailyCapacity then signals.dueToday / signals.dailyCapacity else 1
  let R_target2 := if 1 < loadRatio then R_target - 0.05 * min 1 (loadRatio - 1) else R_target
  min 0.97 (max 0.75 R_target2)

/-- `applyAdaptiveRetention(R_eff, R_target, strength)` from
`src/tensor/policy/adaptiveRetention.ts`. -/
def applyAdaptiveRetention (R_eff R_target strength : ℝ) : ℝ :=
  min 0.99 (max 0.01 (R_eff + strength * (R_target - R_eff)))

/-- `computeSessionMomentum(reviewsSoFar)` from
`src/tensor/policy/sessionMomentum.ts`, with default `k = 0.02`. -/
def computeSessionMomentum (reviewsSoFar : ℝ) : ℝ :=
  min 1 (max 0.9 (Real.exp (-(0.02) * reviewsSoFar)))

/-- `ContextSignals` from `src/tensor/policy/contextModulation.ts`. -/
structure ContextSignals where
  environmentQuality : Option ℝ
  difficulty : Option ℝ
  timeOfDay : Option ℝ

/-- `computeContextMultiplier(signals)` from
`src/tensor/policy/contextModulation.ts`. -/
def computeContextMultiplier (signals : Option ContextSignals) : ℝ :=
  match signals with
  | none => 1
  | some s =>
    let m1 := 1 + (match s.environmentQuality with
      | some q => (q - 0.5) * 0.1
      | none => 0)
    let m2 := m1 + (match s.difficulty with
      | some d => (1 - d) * 0.05
      | none => 0)
    let m3 := m2 + (match s.timeOfDay with
      | some tod => (tod - 0.5) * 0.05
      | none => 0)
    min 1.05 (max 0.85 m3)

/-- Input of `computeEffectiveState` from `src/tensor/computeEffectiveState.ts`. -/
structure EffectiveStateInput where
  S : ℝ
  t : ℝ
  scheduled_t : Option ℝ
  early : Bool
  postponed : Bool
  contextMultiplier : ℝ

/-- Output of `computeEffectiveState`. -/
structure EffectiveState where
  R_eff : ℝ
  t_eff : ℝ

/-- `computeEffectiveState(input)` from `src/tensor/computeEffectiveState.ts`. -/
def computeEffectiveState (input : EffectiveStateInput) : EffectiveState :=
  let t1 := match input.scheduled_t with
    | some st => if st < input.t then (input.t - st) + 1.5 * st else input.t
    | none => input.t
  let t2 := if input.early then max 0 (t1 * 0.85) else t1
  let t3 := if input.postponed && input.scheduled_t.isNone then t2 * 1.15 else t2
  let R0 := forgetting_curve default_w t3 input.S
  let R1 := R0 * input.contextMultiplier
  { R_eff := min 0.99 (max 0.01 R1), t_eff := t3 }

/-- Input of `updateStabilityTensor` from `src/tensor/updateTensorStability.ts`.
`reviewStep` never passes `contextMultiplier`/`sessionMomentum`, so the
TypeScript defaults (1) are passed explicitly at every call site. -/
structure StabilityUpdateInput where
  S : ℝ
  R_eff : ℝ
  grade : ℕ
  difficulty : ℝ
  scheduled_t : Option ℝ
  actual_t : Option ℝ
  contextMultiplier : ℝ
  sessionMomentum : ℝ

/-- `updateStabilityTensor(input)` from `src/tensor/updateTensorStability.ts`. -/
def updateStabilityTensor (input : StabilityUpdateInput) : ℝ :=
  let S_base := next_recall_stability default_w input.difficulty input.S input.R_eff input.grade
  let S_mod := S_base * input.contextMultiplier * input.sessionMomentum
  let S_pen := match input.scheduled_t, input.actual_t with
    | some st, some a_t => if st < a_t then S_mod / ((a_t / st) ^ (0.8 : ℝ)) else S_mod
    | _, _ => S_mod
  min 36500 (max 0.1 S_pen)

/-- `SchedulerInput` from `src/scheduler/types.ts` (timestamps as reals). -/
structure SchedulerInput where
  now : ℝ
  S_eff : ℝ
  R_eff : ℝ
  t_eff : ℝ
  grade : Grade
  difficulty : ℝ

/-- `SchedulerOutput` from `src/scheduler/types.ts`. -/
structure SchedulerOutput where
  nextInterval : ℝ
  due : ℝ

/-- The injected `Scheduler` capability: one `schedule` method. -/
def Scheduler : Type := SchedulerInput → SchedulerOutput

/-- `ReviewStepInput` from `src/tensor/reviewStep.ts`, with the TypeScript
defaults (`early = false`, `postponed = false`, `reviewsSoFarInSession = 0`)
supplied explicitly by callers. -/
structure ReviewStepInput where
  S : ℝ
  difficulty : ℝ
  t : ℝ
  scheduled_t : Option ℝ
  grade : Grade
  early : Bool
  postponed : Bool
  R_target : Option ℝ
  retentionSignals : Option RetentionSignals
  reviewsSoFarInSession : ℝ
  contextSignals : Option ContextSignals
  now : ℝ
  scheduler : Scheduler

/-- `ReviewStepOutput` from `src/tensor/reviewStep.ts`. -/
structure ReviewStepOutput where
  S_new : ℝ
  nextInterval : ℝ
  due : ℝ
  R_eff : ℝ
  t_eff : ℝ

/-- Step 1 of `reviewStep`: the `computeEffectiveState` call (context
modulation is applied later, so `contextMultiplier = 1`). -/
def reviewStepEff (input : ReviewStepInput) : EffectiveState :=
  computeEffectiveState
    { S := input.S, t := input.t, scheduled_t := input.scheduled_t,
      early := input.early, postponed := input.postponed, contextMultiplier := 1 }

/-- Step 2 of `reviewStep`: load pressure (1.0 without retention signals). -/
def reviewStepPressure (input : ReviewStepInput) : ℝ :=
  match input.retentionSignals with
  | some sig => computeLoadPressure sig.dueToday sig.dailyCapacity
  | none => 1

/-- Step 3 of `reviewStep`: `R_target ?? (retentionSignals ? computeRTarget(retentionSignals) : 0.9)`. -/
def reviewStepRTarget (input : ReviewStepInput) : ℝ :=
  match input.R_target with
  | some r => r
  | none =>
    match input.retentionSignals with
    | some sig => computeRTarget sig
    | none => 0.9

/-- Step 4 of `reviewStep`: adaptive retention with pressure-scaled strength
`0.5 · pressure`. -/
def reviewStepAdjustedR (input : ReviewStepInput) : ℝ :=
  applyAdaptiveRetention (reviewStepEff input).R_eff (reviewStepRTarget input)
    (0.5 * reviewStepPressure input)

/-- Steps 5 and 6 of `reviewStep`: the stability-tensor update followed by
`S_new · sessionMomentum · pressure · contextMultiplier`. -/
def reviewStepSixS_new (input : ReviewStepInput) : ℝ :=
  updateStabilityTensor
    { S := input.S, R_eff := reviewStepAdjustedR input, grade := gradeMap input.grade,
      difficulty := input.difficulty, scheduled_t := input.scheduled_t,
      actual_t := some input.t, contextMultiplier := 1, sessionMomentum := 1 } *
    computeSessionMomentum input.reviewsSoFarInSession *
    reviewStepPressure input *
    computeContextMultiplier input.contextSignals

/-- The `maxAllowedS_new` ceiling of the load-monotonicity clamp in
`reviewStep`: the stability tensor evaluated at the raw (not
adaptive-retention-adjusted) `R_eff` of a fresh `computeEffectiveState`
call, multiplied by the same `sessionMomentum · pressure · contextMultiplier`. -/
def loadClampCeiling (input : ReviewStepInput) : ℝ :=
  updateStabilityTensor
    { S := input.S, R_eff := (reviewStepEff input).R_eff, grade := gradeMap input.grade,
      difficulty := input.difficulty, scheduled_t := input.scheduled_t,
      actual_t := some input.t, contextMultiplier := 1, sessionMomentum := 1 } *
    computeSessionMomentum input.reviewsSoFarInSession *
    reviewStepPressure input *
    computeContextMultiplier input.contextSignals

/-- The `S_new` value produced by `reviewStep`, including the
load-monotonicity clamp applied when retention signals are present and
pressure is below 1. -/
def reviewStepS_new (input : ReviewStepInput) : ℝ :=
  match input.retentionSignals with
  | some _ =>
    if reviewStepPressure input < 1 then
      min (reviewStepSixS_new input) (loadClampCeiling input)
    else reviewStepSixS_new input
  | none => reviewStepSixS_new input

/-- `reviewStep(input)` from `src/tensor/reviewStep.ts`. -/
def reviewStep (input : ReviewStepInput) : ReviewStepOutput :=
  let schedulerResult := input.scheduler
    { now := input.now, S_eff := reviewStepS_new input, R_eff := reviewStepAdjustedR input,
      t_eff := (reviewStepEff input).t_eff, grade := input.grade,
      difficulty := input.difficulty }
  { S_new := reviewStepS_new input,
    nextInterval := schedulerResult.nextInterval,
    due := schedulerResult.due,
    R_eff := reviewStepAdjustedR input,
    t_eff := (reviewStepEff input).t_eff }

/-- `MemoryState` from `src/tensor/types.ts` as consumed by
`validateMemoryState`. -/
structure MemoryState where
  S : ℝ
  difficulty : ℝ
  t : ℝ
  scheduled_t : Option ℝ

/-- `ValidationResult` from `src/tensor/types.ts`; `valid` is the
proposition that the error list is empty. -/
structure ValidationResult where
  valid : Prop
  errors : List String

open Classical in
/-- `validateMemoryState(state)` from `src/tensor/integration.ts`.  The
`typeof`-is-a-number checks are vacuous in this embedding (every field is a
real number by construction). -/
def validateMemoryState (state : MemoryState) : ValidationResult :=
  let e1 := if state.S < 0 then ["Stability (S) must be a non-negative number"] else []
  let e2 := if 36500 < state.S then ["Stability (S) exceeds maximum allowed value (36500)"] else []
  let e3 := if state.difficulty < 0 ∨ 10 < state.difficulty
    then ["Difficulty must be between 0 and 10"] else []
  let e4 := if state.t < 0 then ["Elapsed time (t) must be a non-negative number"] else []
  let e5 := match state.scheduled_t with
    | some st =>
      (if st < 0 then ["Scheduled time (scheduled_t) must be a non-negative number"] else []) ++
      (if state.t < st then ["Scheduled time cannot be greater than elapsed time"] else [])
    | none => []
  let errors := e1 ++ e2 ++ e3 ++ e4 ++ e5
  { valid := errors = [], errors := errors }

/-- Modelled from the spec (§4.6 step 7): the baseline `S_new` the spec says
the load-monotonicity clamp compares against — "recompute steps 1–6 with
retentionSignals omitted (pressure forced to 1.0)".  With signals omitted the
retention target falls back to the explicit override or 0.9, adaptive
retention is applied with strength `0.5 · 1.0`, and step 6 multiplies by
`sessionMomentum · 1.0 · contextMultiplier`. -/
def specLoadClampBaselineS_new (input : ReviewStepInput) : ℝ :=
  let eff := reviewStepEff input
  let R_target := match input.R_target with
    | some r => r
    | none => 0.9
  let adjustedR_eff := applyAdaptiveRetention eff.R_eff R_target (0.5 * 1)
  updateStabilityTensor
    { S := input.S, R_eff := adjustedR_eff, grade := gradeMap input.grade,
      difficulty := input.difficulty, scheduled_t := input.scheduled_t,
      actual_t := some input.t, contextMultiplier := 1, sessionMomentum := 1 } *
    computeSessionMomentum input.reviewsSoFarInSession *
    1 *
    computeContextMultiplier input.contextSignals

/-- A concrete scheduler used for closed-form evaluations. -/
def constScheduler : Scheduler := fun _ => { nextInterval := 1, due := 0 }

/-- A second concrete scheduler, differing from `constScheduler`. -/
def doubleScheduler : Scheduler := fun input => { nextInterval := input.S_eff * 2, due := input.now + 2 }

/-- A baseline `ReviewStepInput` used to build concrete test inputs:
`S = 10`, `D = 5`, `t = 5`, grade Good, no optional signals. -/
def baseInput : ReviewStepInput :=
  { S := 10, difficulty := 5, t := 5, scheduled_t := none, grade := Grade.Good,
    early := false, postponed := false, R_target := none, retentionSignals := none,
    reviewsSoFarInSession := 0, contextSignals := none, now := 0,
    scheduler := constScheduler }

/-- Retention signals with `dueToday = 100`, `dailyCapacity = 50`:
load pressure `clamp(50/100, 0.85, 1) = 0.85 < 1`. -/
def overloadSignals : RetentionSignals :=
  { backlogSize := 0, recentFailureRate := 0, sessionLength := 0,
    dailyCapacity := 50, dueToday := 100, recentSuccessRate := none,
    userIntent := none }

/-- Concrete input for the load-monotonicity clamp: overload signals,
`t = 0` (so the raw recall probability is exactly 0.99 after clamping) and an
explicit retention target 0.75 below the current recall. -/
def clampProbeInput : ReviewStepInput :=
  { baseInput with t := 0, R_target := some 0.75, retentionSignals := some overloadSignals }

/-- Context signals whose multiplier clamps to the maximum 1.05. -/
def boostContext : ContextSignals :=
  { environmentQuality := some 1, difficulty := some 0, timeOfDay := some 1 }

/-- Concrete input with stability at the cap and a context multiplier of
1.05: `S = 36500`, `t = 0`, no retention signals. -/
def capProbeInput : ReviewStepInput :=
  { baseInput with S := 36500, t := 0, contextSignals := some boostContext }

/-- Concrete input with an out-of-domain stability `S = -1` (the spec says
such a call must fail with InvalidInput). -/
def negativeSProbeInput : ReviewStepInput :=
  { baseInput with S := -1, t := 0 }

/-- A parameter vector whose last weight is 0, so the derived decay is 0
(the degenerate case the spec says must fail with InvalidParameter). -/
def zeroDecayParams : ℕ → ℝ :=
  fun i => if i = 20 then 0 else default_w i

end

/-! ## Basic properties of `round8` -/

theorem round8_le (x : ℝ) : round8 x ≤ x + 1 / 200000000 := by
  have h := abs_sub_round (x * 100000000)
  rw [abs_le] at h
  unfold round8
  rw [div_le_iff₀ (by norm_num : (0:ℝ) < 100000000)]
  nlinarith [h.1, h.2]

theorem le_round8 (x : ℝ) : x - 1 / 200000000 ≤ round8 x := by
  have h := abs_sub_round (x * 100000000)
  rw [abs_le] at h
  unfold round8
  rw [le_div_iff₀ (by norm_num : (0:ℝ) < 100000000)]
  nlinarith [h.1, h.2]

theorem round8_mono {x y : ℝ} (h : x ≤ y) : round8 x ≤ round8 y := by
  unfold round8
  have hr : round (x * 100000000) ≤ round (y * 100000000) := by
    rw [round_eq, round_eq]
    exact Int.floor_mono (by linarith)
  exact div_le_div_of_nonneg_right (by exact_mod_cast hr) (by norm_num)

theorem round8_lt {x y : ℝ} (h : x + 1 / 100000000 ≤ y) : round8 x < round8 y := by
  unfold round8
  have hr : round (x * 100000000) < round (y * 100000000) := by
    rw [round_eq, round_eq]
    have h1 : x * 100000000 + 1 / 2 + 1 ≤ y * 100000000 + 1 / 2 := by nlinarith
    calc ⌊x * 100000000 + 1 / 2⌋ < ⌊x * 100000000 + 1 / 2⌋ + 1 := by omega
      _ = ⌊x * 100000000 + 1 / 2 + 1⌋ := by
          rw [show (1:ℝ) = ((1:ℤ):ℝ) by norm_num, Int.floor_add_int]
      _ ≤ ⌊y * 100000000 + 1 / 2⌋ := Int.floor_mono h1
  exact (div_lt_div_iff_of_pos_right (by norm_num : (0:ℝ) < 100000000)).mpr (by exact_mod_cast hr)

/-- `round8` fixes every real that is an integer multiple of `10⁻⁸`. -/
theorem round8_fixed {x : ℝ} (n : ℤ) (h : x * 100000000 = (n : ℝ)) : round8 x = x := by
  unfold round8
  rw [h, round_intCast]
  rw [eq_comm, eq_div_iff (by norm_num : (100000000:ℝ) ≠ 0)]
  exact h

theorem round8_zero : round8 0 = 0 :=
  round8_fixed 0 (by norm_num)

theorem round8_one : round8 1 = 1 :=
  round8_fixed 100000000 (by norm_num)

/-! ## Simple evaluation lemmas -/

theorem forgetting_curve_zero (S : ℝ) : forgetting_curve default_w 0 S = 1 := by
  simp [forgetting_curve, round8_one]

theorem validateMemoryState_valid (state : MemoryState) :
    (validateMemoryState state).valid = ((validateMemoryState state).errors = []) := rfl

theorem default_w_20 : default_w 20 = 0.1542 := rfl

theorem decayFactor_decay : (computeDecayFactor default_w).decay = -0.1542 := rfl

/-! ## Claim C2: scheduler isolation -/

/-- C2: for any two Scheduler implementations and identical remaining inputs,
`reviewStep` returns identical `S_new`, `R_eff` and `t_eff`; only
`nextInterval` and `due` may differ. -/
theorem scheduler_isolation (input : ReviewStepInput) (sch1 sch2 : Scheduler) :
    (reviewStep { input with scheduler := sch1 }).S_new =
      (reviewStep { input with scheduler := sch2 }).S_new ∧
    (reviewStep { input with scheduler := sch1 }).R_eff =
      (reviewStep { input with scheduler := sch2 }).R_eff ∧
    (reviewStep { input with scheduler := sch1 }).t_eff =
      (reviewStep { input with scheduler := sch2 }).t_eff :=
  ⟨rfl, rfl, rfl⟩

/-! ## Claim C9: grade Again takes the success branch exactly like Good -/

/-- C9: `next_recall_stability` treats grade Again (1) exactly like grade
Good (3) — the hard penalty applies only to Hard and the easy bonus only to
Easy — and consequently `updateStabilityTensor` and the `S_new` field of
`reviewStep` coincide for grades Again and Good at otherwise identical
inputs. -/
theorem again_eq_good :
    (∀ (params : ℕ → ℝ) (d s r : ℝ),
      next_recall_stability params d s r 1 = next_recall_stability params d s r 3) ∧
    (∀ input : StabilityUpdateInput,
      updateStabilityTensor { input with grade := 1 } =
        updateStabilityTensor { input with grade := 3 }) ∧
    (∀ input : ReviewStepInput,
      (reviewStep { input with grade := Grade.Again }).S_new =
        (reviewStep { input with grade := Grade.Good }).S_new) :=
  ⟨fun _ _ _ _ => rfl, fun _ => rfl, fun _ => rfl⟩

/-! ## Claim C10: validateMemoryState accepts S = 0 -/

/-- C10: `validateMemoryState` accepts a memory state with stability exactly
zero (difficulty 5, elapsed time 1, no scheduled time), and it rejects only
`S < 0`, `S > 36500`, difficulty outside `[0, 10]`, negative `t`, and a
scheduled time that is negative or greater than `t`. -/
theorem validateMemoryState_zero_S_and_rejects :
    (validateMemoryState { S := 0, difficulty := 5, t := 1, scheduled_t := none }).valid ∧
    ∀ state : MemoryState,
      (validateMemoryState state).valid ↔
        (0 ≤ state.S ∧ state.S ≤ 36500 ∧ 0 ≤ state.difficulty ∧ state.difficulty ≤ 10 ∧
          0 ≤ state.t ∧ ∀ st : ℝ, state.scheduled_t = some st → 0 ≤ st ∧ st ≤ state.t) := by
  constructor
  · rw [validateMemoryState_valid]
    simp only [validateMemoryState, List.append_nil, List.append_eq_nil, ite_eq_right_iff,
      List.cons_ne_nil, imp_false, not_lt, not_or]
    norm_num
  · intro state
    rw [validateMemoryState_valid]
    rcases hst : state.scheduled_t with _ | st
    · simp only [validateMemoryState, hst, List.append_nil, List.append_eq_nil,
        ite_eq_right_iff, List.cons_ne_nil, imp_false, not_lt, not_or]
      constructor
      · rintro ⟨⟨⟨h1, h2⟩, h3, h4⟩, h5⟩
        exact ⟨h1, h2, h3, h4, h5, fun st h => by simp at h⟩
      · rintro ⟨h1, h2, h3, h4, h5, -⟩
        exact ⟨⟨⟨h1, h2⟩, h3, h4⟩, h5⟩
    · simp only [validateMemoryState, hst, List.append_eq_nil, ite_eq_right_iff,
        List.cons_ne_nil, imp_false, not_lt, not_or]
      constructor
      · rintro ⟨⟨⟨⟨h1, h2⟩, h3, h4⟩, h5⟩, h6, h7⟩
        refine ⟨h1, h2, h3, h4, h5, fun st2 hst2 => ?_⟩
        obtain rfl : st = st2 := by injection hst2
        exact ⟨h6, h7⟩
      · rintro ⟨h1, h2, h3, h4, h5, h6⟩
        obtain ⟨h7, h8⟩ := h6 st rfl
        exact ⟨⟨⟨⟨h1, h2⟩, h3, h4⟩, h5⟩, h7, h8⟩

/-! ## Claim C5: decayFactor never fails -/

/-- C5: `computeDecayFactor` has no failure path.  At a parameter vector
whose last weight is 0 — the degenerate decay the spec says must raise
InvalidParameter — it returns a `DecayFactor` record anyway (in this real
model `0⁻¹ = 0`, so the factor evaluates to 0; the JavaScript original
returns `{decay: -0, factor: -1}` via `Math.pow(0, -1) = Infinity`). -/
theorem computeDecayFactor_total_at_zero :
    (computeDecayFactor zeroDecayParams).decay = 0 ∧
    (computeDecayFactor zeroDecayParams).factor = 0 := by
  constructor
  · show -(zeroDecayParams 20) = 0
    simp [zeroDecayParams]
  · show round8 (Real.exp ((-(zeroDecayParams 20))⁻¹ * Real.log 0.9) - 1) = 0
    simp [zeroDecayParams, Real.exp_zero, round8_zero]

/-! ## Claim C6: the failure branch never exceeds the pre-review stability -/

/-- C6 (amended): with `enable_short_term = false`,
`next_forget_stability` never exceeds `round8 S`, and hence never exceeds
`S + 5·10⁻⁹`; the final rounding can push the result above `S` itself by up
to half an ulp of the 8-digit grid. -/
theorem next_forget_stability_le_round8 (params : ℕ → ℝ) (d s r : ℝ) :
    next_forget_stability params d s r false ≤ round8 s ∧
      round8 s ≤ s + 1 / 200000000 := by
  constructor
  · show round8 (clamp _ 0.001 s) ≤ round8 s
    exact round8_mono (min_le_right _ s)
  · exact round8_le s

/-- C6 counterexample: at the pre-review stability `S = 3/400000000`
(7.5·10⁻⁹), the failure branch returns `10⁻⁸ > S`: the rounded result
exceeds the pre-review stability, contradicting the claimed contract. -/
theorem next_forget_stability_exceeds_small_S :
    (3 / 400000000 : ℝ) < next_forget_stability default_w 1 (3 / 400000000) 0.9 false := by
  show (3 / 400000000 : ℝ) < round8 (clamp _ 0.001 (3 / 400000000))
  have hc : clamp (default_w 11 * (1:ℝ) ^ (-(default_w 12)) *
      (((3:ℝ) / 400000000 + 1) ^ (default_w 13) - 1) *
      Real.exp ((1 - 0.9) * default_w 14)) 0.001 (3 / 400000000) = 3 / 400000000 := by
    unfold clamp
    refine min_eq_right ?_
    calc (3 / 400000000 : ℝ) ≤ 0.001 := by norm_num
      _ ≤ max _ 0.001 := le_max_right _ _
  rw [hc]
  have : round8 (3 / 400000000 : ℝ) = 1 / 100000000 := by
    unfold round8
    have h1 : (3 / 400000000 : ℝ) * 100000000 = 3 / 4 := by norm_num
    rw [h1, round_eq]
    norm_num [Int.floor_eq_iff]
  rw [this]
  norm_num

/-! ## Claim C4: reviewStep performs no input validation -/

theorem negativeSProbe_eff :
    (reviewStepEff negativeSProbeInput).R_eff = 0.99 ∧
      (reviewStepEff negativeSProbeInput).t_eff = 0 := by
  constructor
  · simp only [reviewStepEff, computeEffectiveState, negativeSProbeInput, baseInput]
    norm_num [forgetting_curve_zero]
  · simp only [reviewStepEff, computeEffectiveState, negativeSProbeInput, baseInput]
    norm_num

/-- C4: `reviewStep` has no validation path.  At the out-of-domain input
`S = -1` (with `t = 0`) — which the spec says must fail with InvalidInput —
it silently returns a complete `ReviewStepOutput` whose effective recall is
0.945 and whose effective elapsed time is 0. -/
theorem reviewStep_accepts_invalid_input :
    (reviewStep negativeSProbeInput).R_eff = 0.945 ∧
      (reviewStep negativeSProbeInput).t_eff = 0 := by
  constructor
  · show reviewStepAdjustedR negativeSProbeInput = 0.945
    rw [reviewStepAdjustedR, negativeSProbe_eff.1]
    show applyAdaptiveRetention 0.99 0.9 (0.5 * 1) = 0.945
    rw [applyAdaptiveRetention]
    norm_num
  · exact negativeSProbe_eff.2

/-! ## Policy bounds -/

theorem updateStabilityTensor_bounds (input : StabilityUpdateInput) :
    0.1 ≤ updateStabilityTensor input ∧ updateStabilityTensor input ≤ 36500 := by
  simp only [updateStabilityTensor]
  exact ⟨le_min (by norm_num) (le_max_left _ _), min_le_left _ _⟩

theorem reviewStepPressure_bounds (input : ReviewStepInput) :
    0.85 ≤ reviewStepPressure input ∧ reviewStepPressure input ≤ 1 := by
  unfold reviewStepPressure
  rcases hr : input.retentionSignals with _ | sig
  · norm_num
  · dsimp only
    unfold computeLoadPressure
    split_ifs
    · norm_num
    · norm_num
    · exact ⟨le_min (by norm_num) (le_max_left _ _), min_le_left _ _⟩

theorem computeSessionMomentum_bounds (r : ℝ) :
    0.9 ≤ computeSessionMomentum r ∧ computeSessionMomentum r ≤ 1 := by
  unfold computeSessionMomentum
  exact ⟨le_min (by norm_num) (le_max_left _ _), min_le_left _ _⟩

theorem computeContextMultiplier_bounds (signals : Option ContextSignals) :
    0.85 ≤ computeContextMultiplier signals ∧ computeContextMultiplier signals ≤ 1.05 := by
  unfold computeContextMultiplier
  rcases signals with _ | s
  · norm_num
  · exact ⟨le_min (by norm_num) (le_max_left _ _), min_le_left _ _⟩

theorem prod4_bounds {u m p c : ℝ} (hu1 : 0.1 ≤ u) (hu2 : u ≤ 36500)
    (hm1 : 0.9 ≤ m) (hm2 : m ≤ 1) (hp1 : 0.85 ≤ p) (hp2 : p ≤ 1)
    (hc1 : 0.85 ≤ c) (hc2 : c ≤ 1.05) :
    0.065025 ≤ u * m * p * c ∧ u * m * p * c ≤ 38325 := by
  have h1 : (0.1 * 0.9 : ℝ) ≤ u * m := by nlinarith
  have h2 : (0.1 * 0.9 * 0.85 : ℝ) ≤ u * m * p := by nlinarith
  have h3 : (0.1 * 0.9 * 0.85 * 0.85 : ℝ) ≤ u * m * p * c := by nlinarith
  have h4 : u * m ≤ 36500 * 1 := by nlinarith
  have h5 : u * m * p ≤ 36500 * 1 * 1 := by nlinarith
  have h6 : u * m * p * c ≤ 36500 * 1 * 1 * 1.05 := by nlinarith
  constructor <;> nlinarith

theorem reviewStepSixS_new_bounds (input : ReviewStepInput) :
    0.065025 ≤ reviewStepSixS_new input ∧ reviewStepSixS_new input ≤ 38325 := by
  unfold reviewStepSixS_new
  exact prod4_bounds (updateStabilityTensor_bounds _).1 (updateStabilityTensor_bounds _).2
    (computeSessionMomentum_bounds _).1 (computeSessionMomentum_bounds _).2
    (reviewStepPressure_bounds _).1 (reviewStepPressure_bounds _).2
    (computeContextMultiplier_bounds _).1 (computeContextMultiplier_bounds _).2

theorem loadClampCeiling_bounds (input : ReviewStepInput) :
    0.065025 ≤ loadClampCeiling input ∧ loadClampCeiling input ≤ 38325 := by
  unfold loadClampCeiling
  exact prod4_bounds (updateStabilityTensor_bounds _).1 (updateStabilityTensor_bounds _).2
    (computeSessionMomentum_bounds _).1 (computeSessionMomentum_bounds _).2
    (reviewStepPressure_bounds _).1 (reviewStepPressure_bounds _).2
    (computeContextMultiplier_bounds _).1 (computeContextMultiplier_bounds _).2

theorem reviewStepS_new_bounds (input : ReviewStepInput) :
    0.065025 ≤ reviewStepS_new input ∧ reviewStepS_new input ≤ 38325 := by
  unfold reviewStepS_new
  rcases hr : input.retentionSignals with _ | sig
  · exact reviewStepSixS_new_bounds input
  · split_ifs
    · exact ⟨le_min (reviewStepSixS_new_bounds input).1 (loadClampCeiling_bounds input).1,
        le_trans (min_le_left _ _) (reviewStepSixS_new_bounds input).2⟩
    · exact reviewStepSixS_new_bounds input

/-! ## Claim C3 (amended): stability bounds -/

/-- C3 (amended): `updateStabilityTensor` always returns a value in
`[0.1, 36500]`; the `S_new` field of `reviewStep` equals that clamped value
times the session momentum, load pressure and context multipliers, so it
lies in `[0.1·0.9·0.85·0.85, 36500·1.05] = [0.065025, 38325]` — the
`[0.1, 36500]` bound itself does not survive the step-6 multipliers. -/
theorem stability_bounds :
    (∀ input : StabilityUpdateInput,
      0.1 ≤ updateStabilityTensor input ∧ updateStabilityTensor input ≤ 36500) ∧
    (∀ input : ReviewStepInput,
      0.065025 ≤ (reviewStep input).S_new ∧ (reviewStep input).S_new ≤ 38325) :=
  ⟨updateStabilityTensor_bounds, fun input => reviewStepS_new_bounds input⟩

/-! ## Claim C3 counterexample: the cap can be exceeded -/

theorem capProbe_eff :
    (reviewStepEff capProbeInput).R_eff = 0.99 ∧
      (reviewStepEff capProbeInput).t_eff = 0 := by
  constructor
  · simp only [reviewStepEff, computeEffectiveState, capProbeInput, baseInput]
    norm_num [forgetting_curve_zero]
  · simp only [reviewStepEff, computeEffectiveState, capProbeInput, baseInput]
    norm_num

theorem capProbe_adjusted : reviewStepAdjustedR capProbeInput = 0.945 := by
  rw [reviewStepAdjustedR, capProbe_eff.1]
  show applyAdaptiveRetention 0.99 0.9 (0.5 * 1) = 0.945
  rw [applyAdaptiveRetention]
  norm_num

theorem round8_clamp_cap {v : ℝ} (h : 36500 ≤ v) :
    round8 (clamp v 0.001 36500) = 36500 := by
  unfold clamp
  rw [min_eq_right (le_trans h (le_max_left v 0.001))]
  exact round8_fixed 3650000000000 (by norm_num)

theorem nrs_at_cap : next_recall_stability default_w 5 36500 0.945 3 = 36500 := by
  simp only [next_recall_stability, default_w]
  rw [if_neg (show ¬((3:ℕ) = 2) by norm_num), if_neg (show ¬((3:ℕ) = 4) by norm_num)]
  apply round8_clamp_cap
  have h1 : (0:ℝ) ≤ Real.exp 1.8722 := (Real.exp_pos _).le
  have h2 : (0:ℝ) ≤ (36500:ℝ) ^ (-(0.1666:ℝ)) := Real.rpow_nonneg (by norm_num) _
  have h3 : (1:ℝ) ≤ Real.exp ((1 - 0.945) * 0.796) := Real.one_le_exp (by norm_num)
  nlinarith [mul_nonneg (mul_nonneg (mul_nonneg h1 (by norm_num : (0:ℝ) ≤ 11 - 5)) h2)
    (by linarith : (0:ℝ) ≤ Real.exp ((1 - 0.945) * 0.796) - 1)]

theorem computeSessionMomentum_zero : computeSessionMomentum 0 = 1 := by
  unfold computeSessionMomentum
  norm_num [Real.exp_zero]

theorem boostContext_mult : computeContextMultiplier (some boostContext) = 1.05 := by
  simp only [computeContextMultiplier, boostContext]
  norm_num

theorem ust_cap : updateStabilityTensor
    { S := 36500, R_eff := 0.945, grade := 3, difficulty := 5, scheduled_t := none,
      actual_t := some 0, contextMultiplier := 1, sessionMomentum := 1 } = 36500 := by
  simp only [updateStabilityTensor]
  rw [nrs_at_cap]
  norm_num

theorem capProbe_S_new : (reviewStep capProbeInput).S_new = 38325 := by
  show updateStabilityTensor
      { S := 36500, R_eff := reviewStepAdjustedR capProbeInput, grade := 3, difficulty := 5,
        scheduled_t := none, actual_t := some 0, contextMultiplier := 1, sessionMomentum := 1 } *
      computeSessionMomentum 0 * 1 * computeContextMultiplier (some boostContext) = 38325
  rw [capProbe_adjusted, ust_cap, computeSessionMomentum_zero, boostContext_mult]
  norm_num

/-- C3 counterexample: at `capProbeInput` (stability at the 36500 cap,
context multiplier 1.05, `t = 0`, no retention signals), `reviewStep`
returns `S_new = 38325 > 36500`, so the claimed `[0.1, 36500]` bound on
`reviewStep` outputs is false. -/
theorem reviewStep_S_new_exceeds_cap : 36500 < (reviewStep capProbeInput).S_new := by
  rw [capProbe_S_new]
  norm_num

/-! ## Rational bounds for real powers -/

theorem le_rpow_of_pow_le {b z q : ℝ} {n : ℕ} (hz : 1 ≤ z) (hq0 : 0 ≤ q)
    (hqn : 1 ≤ q * n) (h : z ^ n ≤ b) : z ≤ b ^ q := by
  calc z = z ^ (1:ℝ) := (Real.rpow_one z).symm
    _ ≤ z ^ ((n:ℝ) * q) := Real.rpow_le_rpow_of_exponent_le hz (by nlinarith)
    _ = (z ^ n) ^ q := by
        rw [Real.rpow_mul (by linarith : (0:ℝ) ≤ z), Real.rpow_natCast]
    _ ≤ b ^ q := Real.rpow_le_rpow (pow_nonneg (by linarith) n) h hq0

theorem rpow_le_of_le_pow {b y q : ℝ} {n : ℕ} (hb : 1 ≤ b) (hy : 1 ≤ y)
    (hq0 : 0 ≤ q) (hqn : q * n ≤ 1) (h : b ≤ y ^ n) : b ^ q ≤ y := by
  calc b ^ q ≤ (y ^ n) ^ q := Real.rpow_le_rpow (by linarith) h hq0
    _ = y ^ ((n:ℝ) * q) := by
        rw [Real.rpow_mul (by linarith : (0:ℝ) ≤ y), Real.rpow_natCast]
    _ ≤ y ^ (1:ℝ) := Real.rpow_le_rpow_of_exponent_le hy (by nlinarith)
    _ = y := Real.rpow_one y

/-! ## Bounds on the default forgetting-curve factor -/

theorem factor_eq_rpow :
    (computeDecayFactor default_w).factor =
      round8 ((10/9 : ℝ) ^ ((0.1542:ℝ)⁻¹) - 1) := by
  show round8 (Real.exp ((-(default_w 20))⁻¹ * Real.log 0.9) - 1) = _
  have h09 : (0.9 : ℝ) = (10/9 : ℝ)⁻¹ := by norm_num
  have harg : (-(default_w 20))⁻¹ * Real.log 0.9 =
      Real.log (10/9) * (0.1542:ℝ)⁻¹ := by
    rw [h09, Real.log_inv, show default_w 20 = (0.1542:ℝ) from rfl, inv_neg]
    ring
  rw [harg, ← Real.rpow_def_of_pos (by norm_num : (0:ℝ) < 10/9)]

theorem factor_bounds :
    0.9619 ≤ (computeDecayFactor default_w).factor ∧
      (computeDecayFactor default_w).factor ≤ 1.0051 := by
  rw [factor_eq_rpow]
  have hlow : (1.962:ℝ) ≤ (10/9 : ℝ) ^ ((0.1542:ℝ)⁻¹) := by
    have h1 : (1.962:ℝ) ≤ (10/9 : ℝ) ^ (6.4:ℝ) := by
      rw [show (6.4:ℝ) = ((32:ℕ):ℝ) * (1/5) by norm_num,
        Real.rpow_mul (by norm_num : (0:ℝ) ≤ 10/9), Real.rpow_natCast]
      exact le_rpow_of_pow_le (n := 5) (by norm_num) (by norm_num) (by norm_num)
        (by norm_num)
    calc (1.962:ℝ) ≤ (10/9 : ℝ) ^ (6.4:ℝ) := h1
      _ ≤ (10/9 : ℝ) ^ ((0.1542:ℝ)⁻¹) :=
          Real.rpow_le_rpow_of_exponent_le (by norm_num) (by norm_num)
  have hhigh : (10/9 : ℝ) ^ ((0.1542:ℝ)⁻¹) ≤ 2.005 := by
    have h1 : (10/9 : ℝ) ^ (6.6:ℝ) ≤ 2.005 := by
      rw [show (6.6:ℝ) = ((33:ℕ):ℝ) * (1/5) by norm_num,
        Real.rpow_mul (by norm_num : (0:ℝ) ≤ 10/9), Real.rpow_natCast]
      exact rpow_le_of_le_pow (n := 5) (by norm_num) (by norm_num) (by norm_num)
        (by norm_num) (by norm_num)
    calc (10/9 : ℝ) ^ ((0.1542:ℝ)⁻¹) ≤ (10/9 : ℝ) ^ (6.6:ℝ) :=
          Real.rpow_le_rpow_of_exponent_le (by norm_num) (by norm_num)
      _ ≤ 2.005 := h1
  constructor
  · have := le_round8 ((10/9 : ℝ) ^ ((0.1542:ℝ)⁻¹) - 1)
    linarith
  · have := round8_le ((10/9 : ℝ) ^ ((0.1542:ℝ)⁻¹) - 1)
    linarith

/-! ## Forgetting-curve bounds and monotonicity -/

theorem forgetting_curve_eq (t S : ℝ) :
    forgetting_curve default_w t S =
      round8 ((1 + (computeDecayFactor default_w).factor * t / S) ^ (-0.1542 : ℝ)) := rfl

theorem fc_le_bound {t S z : ℝ} (hS : 0 < S) (ht : 0 ≤ t) (hz : 1 ≤ z)
    (h : z ^ (7:ℕ) ≤ 1 + 0.9619 * (t / S)) :
    forgetting_curve default_w t S ≤ z⁻¹ + 1 / 200000000 := by
  rw [forgetting_curve_eq]
  have hf := factor_bounds
  have hts : 0 ≤ t / S := div_nonneg ht hS.le
  have hb1 : (1:ℝ) ≤ 1 + (computeDecayFactor default_w).factor * t / S := by
    rw [mul_div_assoc]
    nlinarith [hf.1]
  have hb : z ^ (7:ℕ) ≤ 1 + (computeDecayFactor default_w).factor * t / S := by
    rw [mul_div_assoc]
    nlinarith [hf.1]
  have hzb : z ≤ (1 + (computeDecayFactor default_w).factor * t / S) ^ (0.1542:ℝ) :=
    le_rpow_of_pow_le hz (by norm_num) (by norm_num) hb
  have hneg : (1 + (computeDecayFactor default_w).factor * t / S) ^ (-0.1542:ℝ) ≤ z⁻¹ := by
    rw [show (-0.1542:ℝ) = -(0.1542:ℝ) by norm_num,
      Real.rpow_neg (by linarith : (0:ℝ) ≤ 1 + (computeDecayFactor default_w).factor * t / S)]
    exact inv_le_inv_of_le (by linarith) hzb
  have := round8_le ((1 + (computeDecayFactor default_w).factor * t / S) ^ (-0.1542:ℝ))
  linarith

theorem fc_ge_bound {t S y : ℝ} (hS : 0 < S) (ht : 0 ≤ t) (hy : 1 ≤ y)
    (h : 1 + 1.0051 * (t / S) ≤ y ^ (6:ℕ)) :
    y⁻¹ - 1 / 200000000 ≤ forgetting_curve default_w t S := by
  rw [forgetting_curve_eq]
  have hf := factor_bounds
  have hts : 0 ≤ t / S := div_nonneg ht hS.le
  have hb1 : (1:ℝ) ≤ 1 + (computeDecayFactor default_w).factor * t / S := by
    rw [mul_div_assoc]
    nlinarith [hf.1]
  have hb : 1 + (computeDecayFactor default_w).factor * t / S ≤ y ^ (6:ℕ) := by
    rw [mul_div_assoc]
    nlinarith [hf.2]
  have hzb : (1 + (computeDecayFactor default_w).factor * t / S) ^ (0.1542:ℝ) ≤ y :=
    rpow_le_of_le_pow hb1 hy (by norm_num) (by norm_num) hb
  have hpos : (0:ℝ) <
      (1 + (computeDecayFactor default_w).factor * t / S) ^ (0.1542:ℝ) :=
    Real.rpow_pos_of_pos (by linarith) _
  have hneg : y⁻¹ ≤ (1 + (computeDecayFactor default_w).factor * t / S) ^ (-0.1542:ℝ) := by
    rw [show (-0.1542:ℝ) = -(0.1542:ℝ) by norm_num,
      Real.rpow_neg (by linarith : (0:ℝ) ≤ 1 + (computeDecayFactor default_w).factor * t / S)]
    exact inv_le_inv_of_le hpos hzb
  have := le_round8 ((1 + (computeDecayFactor default_w).factor * t / S) ^ (-0.1542:ℝ))
  linarith

theorem fc_le_one {t S : ℝ} (hS : 0 < S) (ht : 0 ≤ t) :
    forgetting_curve default_w t S ≤ 1 + 1 / 200000000 := by
  rw [forgetting_curve_eq]
  have hf := factor_bounds
  have hts : 0 ≤ t / S := div_nonneg ht hS.le
  have hb1 : (1:ℝ) ≤ 1 + (computeDecayFactor default_w).factor * t / S := by
    rw [mul_div_assoc]
    nlinarith [hf.1]
  have h1 : (1 + (computeDecayFactor default_w).factor * t / S) ^ (-0.1542:ℝ) ≤ 1 :=
    Real.rpow_le_one_of_one_le_of_nonpos hb1 (by norm_num)
  have := round8_le ((1 + (computeDecayFactor default_w).factor * t / S) ^ (-0.1542:ℝ))
  linarith

theorem fc_ge_inv {t S : ℝ} (hS : 0 < S) (ht : 0 ≤ t) :
    (1 + 1.0051 * (t / S))⁻¹ - 1 / 200000000 ≤ forgetting_curve default_w t S := by
  rw [forgetting_curve_eq]
  have hf := factor_bounds
  have hts : 0 ≤ t / S := div_nonneg ht hS.le
  have hb1 : (1:ℝ) ≤ 1 + (computeDecayFactor default_w).factor * t / S := by
    rw [mul_div_assoc]
    nlinarith [hf.1]
  have h1 : (1 + (computeDecayFactor default_w).factor * t / S) ^ (-1:ℝ) ≤
      (1 + (computeDecayFactor default_w).factor * t / S) ^ (-0.1542:ℝ) :=
    Real.rpow_le_rpow_of_exponent_le hb1 (by norm_num)
  rw [Real.rpow_neg_one] at h1
  have h2 : (1 + 1.0051 * (t / S))⁻¹ ≤
      (1 + (computeDecayFactor default_w).factor * t / S)⁻¹ := by
    apply inv_le_inv_of_le (by linarith)
    rw [mul_div_assoc]
    nlinarith [hf.2]
  have := le_round8 ((1 + (computeDecayFactor default_w).factor * t / S) ^ (-0.1542:ℝ))
  linarith

theorem fc_anti {t1 t2 S : ℝ} (hS : 0 < S) (ht1 : 0 ≤ t1) (h : t1 ≤ t2) :
    forgetting_curve default_w t2 S ≤ forgetting_curve default_w t1 S := by
  rw [forgetting_curve_eq, forgetting_curve_eq]
  apply round8_mono
  have hf := factor_bounds
  have hb1 : (1:ℝ) ≤ 1 + (computeDecayFactor default_w).factor * t1 / S := by
    rw [mul_div_assoc]
    nlinarith [hf.1, div_nonneg ht1 hS.le]
  have hb12 : 1 + (computeDecayFactor default_w).factor * t1 / S ≤
      1 + (computeDecayFactor default_w).factor * t2 / S := by
    have hmul : (computeDecayFactor default_w).factor * t1 ≤
        (computeDecayFactor default_w).factor * t2 := by nlinarith [hf.1]
    linarith [div_le_div_of_nonneg_right hmul hS.le]
  rw [show (-0.1542:ℝ) = -(0.1542:ℝ) by norm_num,
    Real.rpow_neg (by linarith : (0:ℝ) ≤ 1 + (computeDecayFactor default_w).factor * t2 / S),
    Real.rpow_neg (by linarith : (0:ℝ) ≤ 1 + (computeDecayFactor default_w).factor * t1 / S)]
  exact inv_le_inv_of_le (Real.rpow_pos_of_pos (by linarith) _)
    (Real.rpow_le_rpow (by linarith) hb12 (by norm_num))

/-! ## Monotonicity of the pipeline stages -/

theorem applyAdaptiveRetention_mono {R1 R2 T s : ℝ} (hs0 : 0 ≤ s) (hs1 : s ≤ 1)
    (h : R1 ≤ R2) :
    applyAdaptiveRetention R1 T s ≤ applyAdaptiveRetention R2 T s := by
  unfold applyAdaptiveRetention
  have hinner : R1 + s * (T - R1) ≤ R2 + s * (T - R2) := by nlinarith
  exact min_le_min (le_refl _) (max_le_max (le_refl _) hinner)

theorem next_recall_stability_anti {d s r1 r2 : ℝ} (g : ℕ) (hs : 0 ≤ s) (hd : d ≤ 11)
    (h : r1 ≤ r2) :
    next_recall_stability default_w d s r2 g ≤ next_recall_stability default_w d s r1 g := by
  unfold next_recall_stability
  apply round8_mono
  unfold clamp
  refine min_le_min (max_le_max ?_ (le_refl _)) (le_refl _)
  have hhp : (0:ℝ) ≤ (if g = 2 then default_w 15 else 1) := by
    split_ifs
    · norm_num [default_w]
    · norm_num
  have heb : (0:ℝ) ≤ (if g = 4 then default_w 16 else 1) := by
    split_ifs
    · norm_num [default_w]
    · norm_num
  have hE : Real.exp ((1 - r2) * default_w 10) ≤ Real.exp ((1 - r1) * default_w 10) := by
    apply Real.exp_le_exp.mpr
    have hw10 : (0:ℝ) ≤ default_w 10 := by norm_num [default_w]
    nlinarith
  have hA : (0:ℝ) ≤ Real.exp (default_w 8) * (11 - d) * s ^ (-(default_w 9)) :=
    mul_nonneg (mul_nonneg (Real.exp_pos _).le (by linarith)) (Real.rpow_nonneg hs _)
  have hprod : (0:ℝ) ≤ s * (Real.exp (default_w 8) * (11 - d) * s ^ (-(default_w 9)) *
      (if g = 2 then default_w 15 else 1) * (if g = 4 then default_w 16 else 1)) :=
    mul_nonneg hs (mul_nonneg (mul_nonneg hA hhp) heb)
  nlinarith [mul_nonneg hprod (sub_nonneg.mpr hE)]

theorem updateStabilityTensor_anti {S d r1 r2 : ℝ} (g : ℕ) (a1 a2 : Option ℝ) (cm sm : ℝ)
    (hS : 0 ≤ S) (hd : d ≤ 11) (hcm : 0 ≤ cm) (hsm : 0 ≤ sm) (h : r1 ≤ r2) :
    updateStabilityTensor
      { S := S, R_eff := r2, grade := g, difficulty := d, scheduled_t := none,
        actual_t := a2, contextMultiplier := cm, sessionMomentum := sm } ≤
      updateStabilityTensor
      { S := S, R_eff := r1, grade := g, difficulty := d, scheduled_t := none,
        actual_t := a1, contextMultiplier := cm, sessionMomentum := sm } := by
  simp only [updateStabilityTensor]
  refine min_le_min (le_refl _) (max_le_max (le_refl _) ?_)
  have hnr := next_recall_stability_anti g hS hd h (d := d) (s := S)
  exact mul_le_mul_of_nonneg_right (mul_le_mul_of_nonneg_right hnr hcm) hsm

/-! ## Claim C7: early reviews never punish -/

set_option maxHeartbeats 2000000 in
/-- C7: with no scheduled time (the invariant-test scenario), `D = 5` and all
remaining inputs identical, an early review at `t = 3` never yields a larger
`S_new` than an on-time review at `t = 5`, for every grade and every
stability `S > 0` (in particular `S ∈ {1, 5, 10, 50, 100}`). -/
theorem early_never_punishes (input : ReviewStepInput) (hS : 0 < input.S)
    (hsch : input.scheduled_t = none) (hD : input.difficulty = 5) :
    (reviewStep { input with t := 3, early := true }).S_new ≤
      (reviewStep { input with t := 5, early := false }).S_new := by
  have hts : 0 ≤ (reviewStepEff { input with t := 3, early := true }).t_eff ∧
      (reviewStepEff { input with t := 3, early := true }).t_eff ≤
        (reviewStepEff { input with t := 5, early := false }).t_eff := by
    simp only [reviewStepEff, computeEffectiveState, hsch, Option.isNone_none, Bool.and_true]
    cases hpost : input.postponed <;> simp [hpost] <;> norm_num
  have hR : (reviewStepEff { input with t := 5, early := false }).R_eff ≤
      (reviewStepEff { input with t := 3, early := true }).R_eff := by
    have h1 : (reviewStepEff { input with t := 3, early := true }).R_eff =
        min 0.99 (max 0.01 (forgetting_curve default_w
          (reviewStepEff { input with t := 3, early := true }).t_eff input.S * 1)) := rfl
    have h2 : (reviewStepEff { input with t := 5, early := false }).R_eff =
        min 0.99 (max 0.01 (forgetting_curve default_w
          (reviewStepEff { input with t := 5, early := false }).t_eff input.S * 1)) := rfl
    rw [h1, h2]
    refine min_le_min (le_refl _) (max_le_max (le_refl _) ?_)
    exact mul_le_mul_of_nonneg_right (fc_anti hS hts.1 hts.2) zero_le_one
  have hpb := reviewStepPressure_bounds input
  have hmb := computeSessionMomentum_bounds input.reviewsSoFarInSession
  have hcb := computeContextMultiplier_bounds input.contextSignals
  have hadj : reviewStepAdjustedR { input with t := 5, early := false } ≤
      reviewStepAdjustedR { input with t := 3, early := true } := by
    show applyAdaptiveRetention (reviewStepEff { input with t := 5, early := false }).R_eff
        (reviewStepRTarget input) (0.5 * reviewStepPressure input) ≤
      applyAdaptiveRetention (reviewStepEff { input with t := 3, early := true }).R_eff
        (reviewStepRTarget input) (0.5 * reviewStepPressure input)
    exact applyAdaptiveRetention_mono (by linarith [hpb.1]) (by linarith [hpb.2]) hR
  have hsix : reviewStepSixS_new { input with t := 3, early := true } ≤
      reviewStepSixS_new { input with t := 5, early := false } := by
    show updateStabilityTensor
        { S := input.S, R_eff := reviewStepAdjustedR { input with t := 3, early := true },
          grade := gradeMap input.grade, difficulty := input.difficulty,
          scheduled_t := input.scheduled_t, actual_t := some 3, contextMultiplier := 1,
          sessionMomentum := 1 } *
        computeSessionMomentum input.reviewsSoFarInSession * reviewStepPressure input *
        computeContextMultiplier input.contextSignals ≤
      updateStabilityTensor
        { S := input.S, R_eff := reviewStepAdjustedR { input with t := 5, early := false },
          grade := gradeMap input.grade, difficulty := input.difficulty,
          scheduled_t := input.scheduled_t, actual_t := some 5, contextMultiplier := 1,
          sessionMomentum := 1 } *
        computeSessionMomentum input.reviewsSoFarInSession * reviewStepPressure input *
        computeContextMultiplier input.contextSignals
    rw [hsch] at hadj ⊢
    have hU := updateStabilityTensor_anti (S := input.S) (d := input.difficulty)
      (gradeMap input.grade) (some (5:ℝ)) (some (3:ℝ))
      1 1 hS.le (by rw [hD]; norm_num) (by norm_num) (by norm_num) hadj
    have h1 := mul_le_mul_of_nonneg_right hU
      (by linarith [hmb.1] : (0:ℝ) ≤ computeSessionMomentum input.reviewsSoFarInSession)
    have h2 := mul_le_mul_of_nonneg_right h1
      (by linarith [hpb.1] : (0:ℝ) ≤ reviewStepPressure input)
    exact mul_le_mul_of_nonneg_right h2 (by linarith [hcb.1])
  have hceil : loadClampCeiling { input with t := 3, early := true } ≤
      loadClampCeiling { input with t := 5, early := false } := by
    show updateStabilityTensor
        { S := input.S, R_eff := (reviewStepEff { input with t := 3, early := true }).R_eff,
          grade := gradeMap input.grade, difficulty := input.difficulty,
          scheduled_t := input.scheduled_t, actual_t := some 3, contextMultiplier := 1,
          sessionMomentum := 1 } *
        computeSessionMomentum input.reviewsSoFarInSession * reviewStepPressure input *
        computeContextMultiplier input.contextSignals ≤
      updateStabilityTensor
        { S := input.S, R_eff := (reviewStepEff { input with t := 5, early := false }).R_eff,
          grade := gradeMap input.grade, difficulty := input.difficulty,
          scheduled_t := input.scheduled_t, actual_t := some 5, contextMultiplier := 1,
          sessionMomentum := 1 } *
        computeSessionMomentum input.reviewsSoFarInSession * reviewStepPressure input *
        computeContextMultiplier input.contextSignals
    rw [hsch] at hR ⊢
    have hU := updateStabilityTensor_anti (S := input.S) (d := input.difficulty)
      (gradeMap input.grade) (some (5:ℝ)) (some (3:ℝ))
      1 1 hS.le (by rw [hD]; norm_num) (by norm_num) (by norm_num) hR
    have h1 := mul_le_mul_of_nonneg_right hU
      (by linarith [hmb.1] : (0:ℝ) ≤ computeSessionMomentum input.reviewsSoFarInSession)
    have h2 := mul_le_mul_of_nonneg_right h1
      (by linarith [hpb.1] : (0:ℝ) ≤ reviewStepPressure input)
    exact mul_le_mul_of_nonneg_right h2 (by linarith [hcb.1])
  show reviewStepS_new { input with t := 3, early := true } ≤
    reviewStepS_new { input with t := 5, early := false }
  have hpA : reviewStepPressure { input with t := 3, early := true } =
      reviewStepPressure input := rfl
  have hpB : reviewStepPressure { input with t := 5, early := false } =
      reviewStepPressure input := rfl
  rcases hr : input.retentionSignals with _ | sig
  · rw [hr] at hsix
    simp only [reviewStepS_new]
    exact hsix
  · rw [hr] at hsix hceil hpA hpB
    simp only [reviewStepS_new]
    rw [hpA, hpB]
    split_ifs
    · exact min_le_min hsix hceil
    · exact hsix

/-- C7 witness: the theorem instantiated at `S = 10`, grade Good, `D = 5`
and the base input. -/
theorem early_never_punishes_witness :
    0 < (baseInput.S) ∧ baseInput.scheduled_t = none ∧ baseInput.difficulty = 5 ∧
      (reviewStep { baseInput with t := 3, early := true }).S_new ≤
        (reviewStep { baseInput with t := 5, early := false }).S_new :=
  ⟨by norm_num [baseInput], rfl, rfl,
    early_never_punishes baseInput (by norm_num [baseInput]) rfl rfl⟩

/-! ## Effective recall: structural bounds -/

theorem reviewStepEff_R_eq (input : ReviewStepInput) :
    (reviewStepEff input).R_eff =
      min 0.99 (max 0.01
        (forgetting_curve default_w (reviewStepEff input).t_eff input.S * 1)) := rfl

theorem Reff_bounds (input : ReviewStepInput) :
    0.01 ≤ (reviewStepEff input).R_eff ∧ (reviewStepEff input).R_eff ≤ 0.99 := by
  rw [reviewStepEff_R_eq]
  exact ⟨le_min (by norm_num) (le_max_left _ _), min_le_left _ _⟩

theorem Reff_le_of_fc_le {input : ReviewStepInput} {c : ℝ} (hc : 0.01 ≤ c)
    (h : forgetting_curve default_w (reviewStepEff input).t_eff input.S ≤ c) :
    (reviewStepEff input).R_eff ≤ c := by
  rw [reviewStepEff_R_eq, mul_one]
  calc min 0.99 (max 0.01 (forgetting_curve default_w (reviewStepEff input).t_eff input.S)) ≤
      max 0.01 (forgetting_curve default_w (reviewStepEff input).t_eff input.S) :=
        min_le_right _ _
    _ ≤ max 0.01 c := max_le_max (le_refl _) h
    _ = c := max_eq_right hc

theorem le_Reff_of_le_fc {input : ReviewStepInput} {c : ℝ}
    (h : c ≤ forgetting_curve default_w (reviewStepEff input).t_eff input.S) :
    min 0.99 c ≤ (reviewStepEff input).R_eff := by
  rw [reviewStepEff_R_eq, mul_one]
  exact min_le_min (le_refl _) (le_trans h (le_max_right _ _))

theorem adjusted_noSignals (input : ReviewStepInput) (hT : input.R_target = none)
    (hsig : input.retentionSignals = none) :
    reviewStepAdjustedR input = 0.5 * (reviewStepEff input).R_eff + 0.45 := by
  have hb := Reff_bounds input
  unfold reviewStepAdjustedR
  rw [show reviewStepRTarget input = 0.9 by simp only [reviewStepRTarget, hT, hsig],
    show reviewStepPressure input = 1 by simp only [reviewStepPressure, hsig]]
  unfold applyAdaptiveRetention
  rw [max_eq_right (by nlinarith [hb.1]), min_eq_right (by nlinarith [hb.2])]
  ring

/-! ## Claim C8: postponement never rewards -/

set_option maxHeartbeats 2000000 in
/-- C8 (amended): with identical other inputs (any nonnegative scheduled
time), the `R_eff` returned for a postponed review at `t = 10` never exceeds
the `R_eff` returned for an on-time review at `t = 5`; the inequality is
strict in the invariants-test scenario (no scheduled time, no retention
signals, no explicit target, not early) for the tested stabilities
`S ∈ {1, 5, 10, 50, 100}` — but not for all stabilities: for large `S` both
recall values clamp at 0.99 and the two `R_eff` are equal. -/
theorem postponement_never_rewards (input : ReviewStepInput) (hS : 0 < input.S)
    (hsched : ∀ σ : ℝ, input.scheduled_t = some σ → 0 ≤ σ) :
    ((reviewStep { input with t := 10, postponed := true }).R_eff ≤
      (reviewStep { input with t := 5, postponed := false }).R_eff) ∧
    (input.scheduled_t = none → input.R_target = none → input.retentionSignals = none →
      input.early = false →
      (input.S = 1 ∨ input.S = 5 ∨ input.S = 10 ∨ input.S = 50 ∨ input.S = 100) →
      (reviewStep { input with t := 10, postponed := true }).R_eff <
        (reviewStep { input with t := 5, postponed := false }).R_eff) := by
  have hts1 : 0 ≤ (reviewStepEff { input with t := 5, postponed := false }).t_eff ∧
      (reviewStepEff { input with t := 5, postponed := false }).t_eff ≤
        (reviewStepEff { input with t := 10, postponed := true }).t_eff := by
    simp only [reviewStepEff, computeEffectiveState]
    rcases hst : input.scheduled_t with _ | σ
    · simp only [Option.isNone_none, Bool.and_true, Bool.and_false]
      cases he : input.early <;> simp [he] <;> norm_num
    · have hσ : 0 ≤ σ := hsched σ hst
      simp only [Option.isNone_some, Bool.and_false]
      cases he : input.early <;> simp [he] <;> split_ifs <;>
        first
        | (right; constructor <;> nlinarith)
        | (constructor <;> nlinarith)
        | nlinarith
  have hSpost : (0:ℝ) < ({ input with t := 10, postponed := true } : ReviewStepInput).S := hS
  have hR1 : (reviewStepEff { input with t := 10, postponed := true }).R_eff ≤
      (reviewStepEff { input with t := 5, postponed := false }).R_eff := by
    rw [reviewStepEff_R_eq, reviewStepEff_R_eq]
    refine min_le_min (le_refl _) (max_le_max (le_refl _) ?_)
    exact mul_le_mul_of_nonneg_right (fc_anti hSpost hts1.1 hts1.2) zero_le_one
  have hpb := reviewStepPressure_bounds input
  have hle : (reviewStep { input with t := 10, postponed := true }).R_eff ≤
      (reviewStep { input with t := 5, postponed := false }).R_eff := by
    show applyAdaptiveRetention
        (reviewStepEff { input with t := 10, postponed := true }).R_eff
        (reviewStepRTarget input) (0.5 * reviewStepPressure input) ≤
      applyAdaptiveRetention
        (reviewStepEff { input with t := 5, postponed := false }).R_eff
        (reviewStepRTarget input) (0.5 * reviewStepPressure input)
    exact applyAdaptiveRetention_mono (by linarith [hpb.1]) (by linarith [hpb.2]) hR1
  refine ⟨hle, ?_⟩
  intro hsch hT hsig hearly hS5
  have htpost : (reviewStepEff { input with t := 10, postponed := true }).t_eff = 11.5 := by
    simp only [reviewStepEff, computeEffectiveState, hsch, hearly, Option.isNone_none,
      Bool.and_true]
    norm_num
  have hton : (reviewStepEff { input with t := 5, postponed := false }).t_eff = 5 := by
    simp only [reviewStepEff, computeEffectiveState, hsch, hearly, Option.isNone_none,
      Bool.and_true, Bool.and_false]
    norm_num
  have hTpost : ({ input with t := 10, postponed := true } : ReviewStepInput).R_target =
      none := hT
  have hTon : ({ input with t := 5, postponed := false } : ReviewStepInput).R_target =
      none := hT
  have hsigpost : ({ input with t := 10, postponed := true } :
      ReviewStepInput).retentionSignals = none := hsig
  have hsigon : ({ input with t := 5, postponed := false } :
      ReviewStepInput).retentionSignals = none := hsig
  have hSprojpost : ({ input with t := 10, postponed := true } : ReviewStepInput).S =
      input.S := rfl
  have hSprojon : ({ input with t := 5, postponed := false } : ReviewStepInput).S =
      input.S := rfl
  show reviewStepAdjustedR { input with t := 10, postponed := true } <
    reviewStepAdjustedR { input with t := 5, postponed := false }
  rw [adjusted_noSignals _ hTpost hsigpost, adjusted_noSignals _ hTon hsigon]
  have hmain : (reviewStepEff { input with t := 10, postponed := true }).R_eff <
      (reviewStepEff { input with t := 5, postponed := false }).R_eff := by
    rcases hS5 with h1 | h1 | h1 | h1 | h1
    · have hpost : (reviewStepEff { input with t := 10, postponed := true }).R_eff ≤
          (1.4269:ℝ)⁻¹ + 1 / 200000000 := by
        refine Reff_le_of_fc_le (by norm_num) ?_
        rw [htpost, hSprojpost, h1]
        exact fc_le_bound (by norm_num) (by norm_num) (by norm_num) (by norm_num)
      have hon : min 0.99 ((1.3495:ℝ)⁻¹ - 1 / 200000000) ≤
          (reviewStepEff { input with t := 5, postponed := false }).R_eff := by
        refine le_Reff_of_le_fc ?_
        rw [hton, hSprojon, h1]
        exact fc_ge_bound (by norm_num) (by norm_num) (by norm_num) (by norm_num)
      rw [min_eq_right (by norm_num)] at hon
      calc (reviewStepEff { input with t := 10, postponed := true }).R_eff ≤
          (1.4269:ℝ)⁻¹ + 1 / 200000000 := hpost
        _ < (1.3495:ℝ)⁻¹ - 1 / 200000000 := by norm_num
        _ ≤ _ := hon
    · have hpost : (reviewStepEff { input with t := 10, postponed := true }).R_eff ≤
          (1.1811:ℝ)⁻¹ + 1 / 200000000 := by
        refine Reff_le_of_fc_le (by norm_num) ?_
        rw [htpost, hSprojpost, h1]
        exact fc_le_bound (by norm_num) (by norm_num) (by norm_num) (by norm_num)
      have hon : min 0.99 ((1.12315:ℝ)⁻¹ - 1 / 200000000) ≤
          (reviewStepEff { input with t := 5, postponed := false }).R_eff := by
        refine le_Reff_of_le_fc ?_
        rw [hton, hSprojon, h1]
        exact fc_ge_bound (by norm_num) (by norm_num) (by norm_num) (by norm_num)
      rw [min_eq_right (by norm_num)] at hon
      calc (reviewStepEff { input with t := 10, postponed := true }).R_eff ≤
          (1.1811:ℝ)⁻¹ + 1 / 200000000 := hpost
        _ < (1.12315:ℝ)⁻¹ - 1 / 200000000 := by norm_num
        _ ≤ _ := hon
    · have hpost : (reviewStepEff { input with t := 10, postponed := true }).R_eff ≤
          (1.11213:ℝ)⁻¹ + 1 / 200000000 := by
        refine Reff_le_of_fc_le (by norm_num) ?_
        rw [htpost, hSprojpost, h1]
        exact fc_le_bound (by norm_num) (by norm_num) (by norm_num) (by norm_num)
      have hon : min 0.99 ((1.07035:ℝ)⁻¹ - 1 / 200000000) ≤
          (reviewStepEff { input with t := 5, postponed := false }).R_eff := by
        refine le_Reff_of_le_fc ?_
        rw [hton, hSprojon, h1]
        exact fc_ge_bound (by norm_num) (by norm_num) (by norm_num) (by norm_num)
      rw [min_eq_right (by norm_num)] at hon
      calc (reviewStepEff { input with t := 10, postponed := true }).R_eff ≤
          (1.11213:ℝ)⁻¹ + 1 / 200000000 := hpost
        _ < (1.07035:ℝ)⁻¹ - 1 / 200000000 := by norm_num
        _ ≤ _ := hon
    · have hpost : (reviewStepEff { input with t := 10, postponed := true }).R_eff ≤
          (1.0289:ℝ)⁻¹ + 1 / 200000000 := by
        refine Reff_le_of_fc_le (by norm_num) ?_
        rw [htpost, hSprojpost, h1]
        exact fc_le_bound (by norm_num) (by norm_num) (by norm_num) (by norm_num)
      have hon : min 0.99 ((1.016095:ℝ)⁻¹ - 1 / 200000000) ≤
          (reviewStepEff { input with t := 5, postponed := false }).R_eff := by
        refine le_Reff_of_le_fc ?_
        rw [hton, hSprojon, h1]
        exact fc_ge_bound (by norm_num) (by norm_num) (by norm_num) (by norm_num)
      rw [min_eq_right (by norm_num)] at hon
      calc (reviewStepEff { input with t := 10, postponed := true }).R_eff ≤
          (1.0289:ℝ)⁻¹ + 1 / 200000000 := hpost
        _ < (1.016095:ℝ)⁻¹ - 1 / 200000000 := by norm_num
        _ ≤ _ := hon
    · have hpost : (reviewStepEff { input with t := 10, postponed := true }).R_eff ≤
          (1.01507:ℝ)⁻¹ + 1 / 200000000 := by
        refine Reff_le_of_fc_le (by norm_num) ?_
        rw [htpost, hSprojpost, h1]
        exact fc_le_bound (by norm_num) (by norm_num) (by norm_num) (by norm_num)
      have hon : min 0.99 ((1.00821:ℝ)⁻¹ - 1 / 200000000) ≤
          (reviewStepEff { input with t := 5, postponed := false }).R_eff := by
        refine le_Reff_of_le_fc ?_
        rw [hton, hSprojon, h1]
        exact fc_ge_bound (by norm_num) (by norm_num) (by norm_num) (by norm_num)
      rw [min_eq_left (by norm_num)] at hon
      calc (reviewStepEff { input with t := 10, postponed := true }).R_eff ≤
          (1.01507:ℝ)⁻¹ + 1 / 200000000 := hpost
        _ < (0.99:ℝ) := by norm_num
        _ ≤ _ := hon
  linarith

/-- C8 witness: the amended theorem applied at `S = 10` (both the weak
inequality and, via the tested-stability list, the strict one). -/
theorem postponement_never_rewards_witness :
    0 < baseInput.S ∧
      (reviewStep { baseInput with t := 10, postponed := true }).R_eff <
        (reviewStep { baseInput with t := 5, postponed := false }).R_eff :=
  ⟨by norm_num [baseInput],
    (postponement_never_rewards baseInput (by norm_num [baseInput])
      (fun σ h => by simp [baseInput] at h)).2 rfl rfl rfl rfl
      (Or.inr (Or.inr (Or.inl rfl)))⟩

set_option maxHeartbeats 1000000 in
/-- C8 counterexample: at stability `S = 1000` (other inputs as in the
invariants test), both the postponed review at `t = 10` and the on-time
review at `t = 5` clamp their recall probability at 0.99, so the returned
`R_eff` values are equal — the claimed strict inequality fails. -/
theorem postponement_not_strict_at_large_S :
    ¬((reviewStep { baseInput with S := 1000, t := 10, postponed := true }).R_eff <
      (reviewStep { baseInput with S := 1000, t := 5, postponed := false }).R_eff) := by
  have htpost : (reviewStepEff { baseInput with S := 1000, t := 10, postponed := true }).t_eff
      = 11.5 := by
    simp only [reviewStepEff, computeEffectiveState, baseInput, Option.isNone_none,
      Bool.and_true]
    norm_num
  have hton : (reviewStepEff { baseInput with S := 1000, t := 5, postponed := false }).t_eff
      = 5 := by
    simp only [reviewStepEff, computeEffectiveState, baseInput, Option.isNone_none,
      Bool.and_true, Bool.and_false]
    norm_num
  have hpost : (reviewStepEff { baseInput with S := 1000, t := 10, postponed := true }).R_eff
      = 0.99 := by
    rw [reviewStepEff_R_eq, mul_one, htpost,
      show ({ baseInput with S := 1000, t := 10, postponed := true } : ReviewStepInput).S =
        (1000:ℝ) from rfl]
    have hfc := fc_ge_bound (t := 11.5) (S := 1000) (y := 1.00192) (by norm_num) (by norm_num)
      (by norm_num) (by norm_num)
    have h99 : (0.99:ℝ) ≤ forgetting_curve default_w 11.5 1000 := by
      have : (0.99:ℝ) ≤ (1.00192:ℝ)⁻¹ - 1 / 200000000 := by norm_num
      linarith
    rw [max_eq_right (by linarith), min_eq_left h99]
  have hon : (reviewStepEff { baseInput with S := 1000, t := 5, postponed := false }).R_eff
      = 0.99 := by
    rw [reviewStepEff_R_eq, mul_one, hton,
      show ({ baseInput with S := 1000, t := 5, postponed := false } : ReviewStepInput).S =
        (1000:ℝ) from rfl]
    have hfc := fc_ge_bound (t := 5) (S := 1000) (y := 1.00192) (by norm_num) (by norm_num)
      (by norm_num) (by norm_num)
    have h99 : (0.99:ℝ) ≤ forgetting_curve default_w 5 1000 := by
      have : (0.99:ℝ) ≤ (1.00192:ℝ)⁻¹ - 1 / 200000000 := by norm_num
      linarith
    rw [max_eq_right (by linarith), min_eq_left h99]
  show ¬(reviewStepAdjustedR { baseInput with S := 1000, t := 10, postponed := true } <
    reviewStepAdjustedR { baseInput with S := 1000, t := 5, postponed := false })
  rw [adjusted_noSignals _ rfl rfl, adjusted_noSignals _ rfl rfl, hpost, hon]
  exact lt_irrefl _

/-! ## Claim C1: the load-monotonicity clamp baseline -/

theorem clamp_eq_self {v lo hi : ℝ} (h1 : lo ≤ v) (h2 : v ≤ hi) : clamp v lo hi = v := by
  unfold clamp
  rw [max_eq_left h1, min_eq_left h2]

theorem exp_le_one_div_one_sub {x : ℝ} (h : x < 1) : Real.exp x ≤ 1 / (1 - x) := by
  have h1 := Real.add_one_le_exp (-x)
  have h2 : Real.exp x * (1 - x) ≤ Real.exp x * Real.exp (-x) :=
    mul_le_mul_of_nonneg_left (by linarith) (Real.exp_pos x).le
  rw [← Real.exp_add] at h2
  have h3 : x + -x = 0 := by ring
  rw [h3, Real.exp_zero] at h2
  rw [le_div_iff₀ (by linarith : (0:ℝ) < 1 - x)]
  linarith

theorem exp18722_bounds : (2.8722:ℝ) ≤ Real.exp 1.8722 ∧ Real.exp 1.8722 ≤ 7.3891 := by
  constructor
  · have h := Real.add_one_le_exp (1.8722:ℝ)
    linarith
  · have h2 : Real.exp (1.8722:ℝ) ≤ Real.exp 2 := Real.exp_le_exp.mpr (by norm_num)
    have h3 : Real.exp (2:ℝ) = Real.exp 1 * Real.exp 1 := by
      rw [← Real.exp_add]; norm_num
    have h4 := Real.exp_one_lt_d9
    nlinarith [Real.exp_pos (1:ℝ)]

theorem rpow10_inv_bounds :
    (1.468:ℝ)⁻¹ ≤ (10:ℝ) ^ (-(0.1666:ℝ)) ∧ (10:ℝ) ^ (-(0.1666:ℝ)) ≤ (1.389:ℝ)⁻¹ := by
  have hup : (10:ℝ) ^ ((0.1666:ℝ)) ≤ 1.468 :=
    rpow_le_of_le_pow (n := 6) (by norm_num) (by norm_num) (by norm_num) (by norm_num)
      (by norm_num)
  have hlo : (1.389:ℝ) ≤ (10:ℝ) ^ ((0.1666:ℝ)) :=
    le_rpow_of_pow_le (n := 7) (by norm_num) (by norm_num) (by norm_num) (by norm_num)
  have hpos : (0:ℝ) < (10:ℝ) ^ ((0.1666:ℝ)) := Real.rpow_pos_of_pos (by norm_num) _
  rw [Real.rpow_neg (by norm_num : (0:ℝ) ≤ 10)]
  exact ⟨inv_le_inv_of_le hpos hup, inv_le_inv_of_le (by norm_num) hlo⟩

theorem nrs10_V_bounds {r x : ℝ} (hxval : (1 - r) * (0.796:ℝ) = x)
    (hx0 : 0 ≤ x) (hx2 : x ≤ 0.2) :
    10 * (1 + 11.739 * x) ≤
      10 * (1 + Real.exp 1.8722 * (11 - 5) * (10:ℝ) ^ (-(0.1666:ℝ)) *
        (Real.exp ((1 - r) * 0.796) - 1) * 1 * 1) ∧
      10 * (1 + Real.exp 1.8722 * (11 - 5) * (10:ℝ) ^ (-(0.1666:ℝ)) *
        (Real.exp ((1 - r) * 0.796) - 1) * 1 * 1) ≤
      10 * (1 + 31.919 * (x / (1 - x))) := by
  rw [hxval]
  have he := exp18722_bounds
  have hr := rpow10_inv_bounds
  have hrpos : (0:ℝ) < (10:ℝ) ^ (-(0.1666:ℝ)) := Real.rpow_pos_of_pos (by norm_num) _
  have hne : (0:ℝ) < 1 - x := by linarith
  have hE1 : x ≤ Real.exp x - 1 := by linarith [Real.add_one_le_exp x]
  have hEnn : (0:ℝ) ≤ Real.exp x - 1 := by linarith
  have hE2 : Real.exp x - 1 ≤ x / (1 - x) := by
    have h1 := exp_le_one_div_one_sub (show x < 1 by linarith)
    rw [le_div_iff₀ hne] at h1
    rw [le_div_iff₀ hne]
    nlinarith [h1]
  have hKlo : (11.739:ℝ) ≤ Real.exp 1.8722 * (11 - 5) * (10:ℝ) ^ (-(0.1666:ℝ)) := by
    have h1 : (2.8722:ℝ) * (11 - 5) ≤ Real.exp 1.8722 * (11 - 5) := by linarith [he.1]
    have h2 : (2.8722:ℝ) * (11 - 5) * (1.468:ℝ)⁻¹ ≤
        Real.exp 1.8722 * (11 - 5) * (10:ℝ) ^ (-(0.1666:ℝ)) :=
      mul_le_mul h1 hr.1 (by norm_num) (by linarith [he.1])
    have h3 : (11.739:ℝ) ≤ (2.8722:ℝ) * (11 - 5) * (1.468:ℝ)⁻¹ := by norm_num
    linarith
  have hKhi : Real.exp 1.8722 * (11 - 5) * (10:ℝ) ^ (-(0.1666:ℝ)) ≤ 31.919 := by
    have h1 : Real.exp 1.8722 * (11 - 5) ≤ (7.3891:ℝ) * (11 - 5) := by linarith [he.2]
    have h2 : Real.exp 1.8722 * (11 - 5) * (10:ℝ) ^ (-(0.1666:ℝ)) ≤
        (7.3891:ℝ) * (11 - 5) * (1.389:ℝ)⁻¹ :=
      mul_le_mul h1 hr.2 hrpos.le (by norm_num)
    have h3 : (7.3891:ℝ) * (11 - 5) * (1.389:ℝ)⁻¹ ≤ 31.919 := by norm_num
    linarith
  constructor
  · have hp : 11.739 * x ≤ Real.exp 1.8722 * (11 - 5) * (10:ℝ) ^ (-(0.1666:ℝ)) *
        (Real.exp x - 1) :=
      mul_le_mul hKlo hE1 hx0 (by linarith)
    nlinarith [hp]
  · have hp : Real.exp 1.8722 * (11 - 5) * (10:ℝ) ^ (-(0.1666:ℝ)) * (Real.exp x - 1) ≤
        31.919 * (x / (1 - x)) :=
      mul_le_mul hKhi hE2 hEnn (by norm_num)
    nlinarith [hp]

theorem nrs10_range {r x : ℝ} (hxval : (1 - r) * (0.796:ℝ) = x)
    (hx0 : 0 ≤ x) (hx2 : x ≤ 0.2) :
    0.1 ≤ next_recall_stability default_w 5 10 r 3 ∧
      next_recall_stability default_w 5 10 r 3 ≤ 36500 := by
  simp only [next_recall_stability, default_w]
  rw [if_neg (show ¬((3:ℕ) = 2) by norm_num), if_neg (show ¬((3:ℕ) = 4) by norm_num)]
  have hV := nrs10_V_bounds hxval hx0 hx2
  have hxd : x / (1 - x) ≤ 0.25 := by
    rw [div_le_iff₀ (by linarith)]
    linarith
  have hVhi : 10 * (1 + 31.919 * (x / (1 - x))) ≤ 90 := by linarith
  rw [clamp_eq_self (by linarith [hV.1]) (by linarith [hV.2])]
  constructor
  · have := le_round8 (10 * (1 + Real.exp 1.8722 * (11 - 5) * (10:ℝ) ^ (-(0.1666:ℝ)) *
      (Real.exp ((1 - r) * 0.796) - 1) * 1 * 1))
    linarith [hV.1]
  · have := round8_le (10 * (1 + Real.exp 1.8722 * (11 - 5) * (10:ℝ) ^ (-(0.1666:ℝ)) *
      (Real.exp ((1 - r) * 0.796) - 1) * 1 * 1))
    linarith [hV.2]

theorem nrs10_strict : next_recall_stability default_w 5 10 0.99 3 <
    next_recall_stability default_w 5 10 0.888 3 := by
  have hV99 := nrs10_V_bounds (r := 0.99) (x := 0.00796) (by norm_num) (by norm_num)
    (by norm_num)
  have hV888 := nrs10_V_bounds (r := 0.888) (x := 0.089152) (by norm_num) (by norm_num)
    (by norm_num)
  simp only [next_recall_stability, default_w]
  rw [if_neg (show ¬((3:ℕ) = 2) by norm_num), if_neg (show ¬((3:ℕ) = 4) by norm_num)]
  apply round8_lt
  rw [clamp_eq_self (by linarith [hV99.1]) (by linarith [hV99.2]),
    clamp_eq_self (by linarith [hV888.1]) (by linarith [hV888.2])]
  linarith [hV99.2, hV888.1]

theorem ust10_eval {r : ℝ}
    (h : 0.1 ≤ next_recall_stability default_w 5 10 r 3 ∧
      next_recall_stability default_w 5 10 r 3 ≤ 36500) :
    updateStabilityTensor
      { S := 10, R_eff := r, grade := 3, difficulty := 5, scheduled_t := none,
        actual_t := some 0, contextMultiplier := 1, sessionMomentum := 1 } =
      next_recall_stability default_w 5 10 r 3 := by
  simp only [updateStabilityTensor]
  rw [mul_one, mul_one, max_eq_right h.1, min_eq_right h.2]

theorem clampProbe_pressure : reviewStepPressure clampProbeInput = 0.85 := by
  show computeLoadPressure 100 50 = 0.85
  unfold computeLoadPressure
  norm_num

theorem clampProbe_eff_R : (reviewStepEff clampProbeInput).R_eff = 0.99 := by
  simp only [reviewStepEff, computeEffectiveState, clampProbeInput, baseInput]
  norm_num [forgetting_curve_zero]

theorem clampProbe_adjusted : reviewStepAdjustedR clampProbeInput = 0.888 := by
  rw [reviewStepAdjustedR, clampProbe_eff_R]
  show applyAdaptiveRetention 0.99 0.75 (0.5 * reviewStepPressure clampProbeInput) = 0.888
  rw [clampProbe_pressure, applyAdaptiveRetention]
  norm_num

theorem clampProbe_six : reviewStepSixS_new clampProbeInput =
    next_recall_stability default_w 5 10 0.888 3 * 0.85 := by
  show updateStabilityTensor
      { S := 10, R_eff := reviewStepAdjustedR clampProbeInput, grade := 3, difficulty := 5,
        scheduled_t := none, actual_t := some 0, contextMultiplier := 1,
        sessionMomentum := 1 } *
      computeSessionMomentum 0 * reviewStepPressure clampProbeInput * 1 = _
  rw [clampProbe_adjusted, clampProbe_pressure, computeSessionMomentum_zero,
    ust10_eval (nrs10_range (r := 0.888) (x := 0.089152) (by norm_num) (by norm_num)
      (by norm_num))]
  ring

theorem clampProbe_ceiling : loadClampCeiling clampProbeInput =
    next_recall_stability default_w 5 10 0.99 3 * 0.85 := by
  show updateStabilityTensor
      { S := 10, R_eff := (reviewStepEff clampProbeInput).R_eff, grade := 3, difficulty := 5,
        scheduled_t := none, actual_t := some 0, contextMultiplier := 1,
        sessionMomentum := 1 } *
      computeSessionMomentum 0 * reviewStepPressure clampProbeInput * 1 = _
  rw [clampProbe_eff_R, clampProbe_pressure, computeSessionMomentum_zero,
    ust10_eval (nrs10_range (r := 0.99) (x := 0.00796) (by norm_num) (by norm_num)
      (by norm_num))]
  ring

theorem clampProbe_specBaseline : specLoadClampBaselineS_new clampProbeInput =
    next_recall_stability default_w 5 10 0.87 3 := by
  show updateStabilityTensor
      { S := 10,
        R_eff := applyAdaptiveRetention (reviewStepEff clampProbeInput).R_eff 0.75 (0.5 * 1),
        grade := 3, difficulty := 5, scheduled_t := none, actual_t := some 0,
        contextMultiplier := 1, sessionMomentum := 1 } *
      computeSessionMomentum 0 * 1 * 1 = _
  rw [clampProbe_eff_R,
    show applyAdaptiveRetention 0.99 0.75 (0.5 * 1) = 0.87 by
      rw [applyAdaptiveRetention]; norm_num,
    computeSessionMomentum_zero,
    ust10_eval (nrs10_range (r := 0.87) (x := 0.10348) (by norm_num) (by norm_num)
      (by norm_num))]
  ring

/-- C1 (amended): when retention signals are supplied and the load pressure is
below 1, `reviewStep` returns `min(S_new, maxAllowedS_new)` where the ceiling
is the stability tensor re-evaluated at the raw, unadjusted `R_eff` of step 1
(multiplied by the same momentum, pressure and context factors) — not the
spec's full signal-free recomputation with pressure forced to 1. -/
theorem reviewStep_clamp_uses_raw_Reff_ceiling (input : ReviewStepInput)
    (sig : RetentionSignals) (hsig : input.retentionSignals = some sig)
    (hp : reviewStepPressure input < 1) :
    (reviewStep input).S_new = min (reviewStepSixS_new input) (loadClampCeiling input) := by
  show reviewStepS_new input = _
  unfold reviewStepS_new
  rw [hsig]
  exact if_pos hp

/-- C1 witness: the amended clamp equation at the concrete overload probe
(`dueToday = 100`, `dailyCapacity = 50`, so pressure `0.85 < 1`). -/
theorem reviewStep_clamp_uses_raw_Reff_ceiling_witness :
    clampProbeInput.retentionSignals = some overloadSignals ∧
      reviewStepPressure clampProbeInput < 1 ∧
      (reviewStep clampProbeInput).S_new =
        min (reviewStepSixS_new clampProbeInput) (loadClampCeiling clampProbeInput) :=
  ⟨rfl, by rw [clampProbe_pressure]; norm_num,
    reviewStep_clamp_uses_raw_Reff_ceiling clampProbeInput overloadSignals rfl
      (by rw [clampProbe_pressure]; norm_num)⟩

/-- C1 counterexample: at the overload probe (`t = 0`, explicit target 0.75,
pressure 0.85) the code's `S_new` is the raw-`R_eff` ceiling
`nrs(0.99) · 0.85`, strictly below the spec's prescription
`min(nrs(0.888) · 0.85, nrs(0.87))` = `nrs(0.888) · 0.85`, so the claimed
baseline equation is false of the code. -/
theorem reviewStep_clamp_differs_from_spec :
    (reviewStep clampProbeInput).S_new ≠
      min (reviewStepSixS_new clampProbeInput) (specLoadClampBaselineS_new clampProbeInput) := by
  have hstrict := nrs10_strict
  have h888le87 : next_recall_stability default_w 5 10 0.888 3 ≤
      next_recall_stability default_w 5 10 0.87 3 :=
    next_recall_stability_anti 3 (by norm_num) (by norm_num) (by norm_num)
  have h888pos : (0.1:ℝ) ≤ next_recall_stability default_w 5 10 0.888 3 :=
    (nrs10_range (r := 0.888) (x := 0.089152) (by norm_num) (by norm_num) (by norm_num)).1
  have hlhs : (reviewStep clampProbeInput).S_new =
      next_recall_stability default_w 5 10 0.99 3 * 0.85 := by
    show (if reviewStepPressure clampProbeInput < 1
        then min (reviewStepSixS_new clampProbeInput) (loadClampCeiling clampProbeInput)
        else reviewStepSixS_new clampProbeInput) = _
    rw [if_pos (show reviewStepPressure clampProbeInput < 1 by
        rw [clampProbe_pressure]; norm_num),
      clampProbe_six, clampProbe_ceiling,
      min_eq_right (mul_le_mul_of_nonneg_right hstrict.le (by norm_num))]
  have hrhs : min (reviewStepSixS_new clampProbeInput)
      (specLoadClampBaselineS_new clampProbeInput) =
      next_recall_stability default_w 5 10 0.888 3 * 0.85 := by
    rw [clampProbe_six, clampProbe_specBaseline]
    exact min_eq_left (by nlinarith)
  rw [hlhs, hrhs]
  intro heq
  nlinarith [hstrict]
